import Mathlib

/-!
Shallow embedding of `producer.py`, a CLI that publishes messages to a Kafka
topic through an Event Streams REST gateway, together with proofs of the
specification's claims about it.

The embedding models:
  * JSON values (the parsed request/response bodies),
  * base64 encoding of the Basic-auth credentials (`base64.b64encode`),
  * UTF-8 encoding of strings (`str.encode()`),
  * the Python-level dynamic operations the code performs on parsed JSON
    (`in`, subscripting, `.get`, `len`, truthiness, `str()`), including the
    exceptions they raise on values of unexpected shape,
  * argument parsing (`argparse` with four required flags),
  * the request construction of `produce_message_rest` and the main loop,
    with the sequence of HTTP responses supplied by an oracle.
-/

/-- JSON values as produced by Python's `json` module (numbers restricted to
integers, which is all the broker responses modelled here use). -/
inductive Json where
  | null : Json
  | bool (b : Bool) : Json
  | num (n : Int) : Json
  | str (s : String) : Json
  | arr (xs : List Json) : Json
  | obj (kvs : List (String × Json)) : Json

/-- The base64 alphabet, in index order. -/
def b64chars : List Char :=
  "ABCDEFGHIJKLMNOPQRSTUVWXYZabcdefghijklmnopqrstuvwxyz0123456789+/".toList

/-- Index of a character in a list of characters. -/
def charIdx : List Char → Char → Option Nat
  | [], _ => none
  | x :: xs, c => if x = c then some 0 else (charIdx xs c).map (· + 1)

/-- The base64 digit for a sextet value. -/
def b64char (n : Nat) : Char := b64chars.getD n 'A'

/-- The sextet value of a base64 digit. -/
def b64val (c : Char) : Option Nat := charIdx b64chars c

/-- Standard base64 encoding with padding, as performed by Python's
`base64.b64encode` on the credential bytes. Input is a list of bytes. -/
def b64encode : List Nat → List Char
  | [] => []
  | [a] => [b64char (a / 4), b64char (a % 4 * 16), '=', '=']
  | [a, b] => [b64char (a / 4), b64char (a % 4 * 16 + b / 16), b64char (b % 16 * 4), '=']
  | a :: b :: c :: rest =>
      b64char (a / 4) :: b64char (a % 4 * 16 + b / 16) ::
        b64char (b % 16 * 4 + c / 64) :: b64char (c % 64) :: b64encode rest

/-- Base64 encoding as a string. -/
def b64encodeStr (bs : List Nat) : String := String.mk (b64encode bs)

/-- Standard base64 decoding: the inverse reading of `b64encode`, used to
state that the Authorization header decodes back to the credentials. -/
def b64decode : List Char → Option (List Nat)
  | [] => some []
  | w :: x :: y :: z :: rest =>
    match b64val w, b64val x with
    | some s1, some s2 =>
      if y = '=' then
        if z = '=' ∧ rest = [] then some [s1 * 4 + s2 / 16] else none
      else
        match b64val y with
        | some s3 =>
          if z = '=' then
            if rest = [] then some [s1 * 4 + s2 / 16, s2 % 16 * 16 + s3 / 4] else none
          else
            match b64val z with
            | some s4 =>
                (b64decode rest).map
                  (fun t => (s1 * 4 + s2 / 16) :: (s2 % 16 * 16 + s3 / 4) :: (s3 % 4 * 64 + s4) :: t)
            | none => none
        | none => none
    | _, _ => none
  | _ => none

/-- UTF-8 encoding of a single character, as in Python's `str.encode()`. -/
def utf8Bytes (c : Char) : List Nat :=
  if c.toNat < 128 then [c.toNat]
  else if c.toNat < 2048 then [192 + c.toNat / 64, 128 + c.toNat % 64]
  else if c.toNat < 65536 then
    [224 + c.toNat / 4096, 128 + c.toNat / 64 % 64, 128 + c.toNat % 64]
  else
    [240 + c.toNat / 262144, 128 + c.toNat / 4096 % 64, 128 + c.toNat / 64 % 64,
      128 + c.toNat % 64]

/-- UTF-8 encoding of a string (Python `str.encode()`). -/
def strBytes (s : String) : List Nat := s.data.flatMap utf8Bytes

/-- Python exceptions that the dynamic JSON handling in `main` can raise. -/
inductive PyErr where
  | typeError (msg : String) : PyErr
  | keyError (key : String) : PyErr
  | attributeError (msg : String) : PyErr
  | indexError (msg : String) : PyErr

/-- The `str()` rendering of an exception, as interpolated by
`print(f'...Error: \x7be\x7d')`. `str(KeyError(k))` is the repr of the key. -/
def pyErrStr : PyErr → String
  | .typeError msg => msg
  | .keyError key => "'" ++ key ++ "'"
  | .attributeError msg => msg
  | .indexError msg => msg

/-- Python truthiness of a parsed JSON value. -/
def truthy : Json → Bool
  | .null => false
  | .bool b => b
  | .num n => n != 0
  | .str s => s != ""
  | .arr xs => !xs.isEmpty
  | .obj kvs => !kvs.isEmpty

/-- Whether `n` is a prefix of `h`, on character lists. -/
def listIsPre : List Char → List Char → Bool
  | [], _ => true
  | _ :: _, [] => false
  | a :: as, b :: bs => a == b && listIsPre as bs

/-- Whether `n` occurs as a contiguous sublist of `h`. -/
def listHasInfix (n : List Char) : List Char → Bool
  | [] => listIsPre n []
  | c :: cs => listIsPre n (c :: cs) || listHasInfix n cs

/-- Python's substring test `sub in s`. -/
def strContains (s sub : String) : Bool := listHasInfix sub.data s.data

/-- Python's `'needle' == elem` membership scan over a list: string equality
against string elements, `False` against every other JSON value. -/
def pyInList (needle : String) : List Json → Bool
  | [] => false
  | .str s :: rest => s == needle || pyInList needle rest
  | _ :: rest => pyInList needle rest

/-- Python's `needle in j` for a string needle: key test on dicts, substring
test on strings, membership on lists, `TypeError` otherwise. -/
def pyIn (needle : String) : Json → Except PyErr Bool
  | .obj kvs => .ok (List.lookup needle kvs).isSome
  | .str s => .ok (strContains s needle)
  | .arr xs => .ok (pyInList needle xs)
  | .null => .error (.typeError "argument of type 'NoneType' is not iterable")
  | .bool _ => .error (.typeError "argument of type 'bool' is not iterable")
  | .num _ => .error (.typeError "argument of type 'int' is not iterable")

/-- Python's `j[key]` for a string key: dict lookup (`KeyError` when absent),
`TypeError` on strings, lists and non-subscriptable values. -/
def pySubscriptStr (j : Json) (key : String) : Except PyErr Json :=
  match j with
  | .obj kvs =>
    match List.lookup key kvs with
    | some v => .ok v
    | none => .error (.keyError key)
  | .str _ => .error (.typeError "string indices must be integers")
  | .arr _ => .error (.typeError "list indices must be integers or slices, not str")
  | .null => .error (.typeError "'NoneType' object is not subscriptable")
  | .bool _ => .error (.typeError "'bool' object is not subscriptable")
  | .num _ => .error (.typeError "'int' object is not subscriptable")

/-- Python's `j[n]` for a natural index: list indexing (`IndexError` when out
of range), single-character extraction on strings, `KeyError` on dicts (whose
modelled keys are all strings), `TypeError` otherwise. -/
def pySubscriptNat (j : Json) (n : Nat) : Except PyErr Json :=
  match j with
  | .arr xs =>
    match xs.get? n with
    | some v => .ok v
    | none => .error (.indexError "list index out of range")
  | .str s =>
    match s.data.get? n with
    | some c => .ok (.str (String.mk [c]))
    | none => .error (.indexError "string index out of range")
  | .obj _ => .error (.keyError (toString n))
  | .null => .error (.typeError "'NoneType' object is not subscriptable")
  | .bool _ => .error (.typeError "'bool' object is not subscriptable")
  | .num _ => .error (.typeError "'int' object is not subscriptable")

/-- Python's `j.get(key, dflt)`: only dicts have `.get`; every other JSON
value raises `AttributeError`. -/
def pyGet (j : Json) (key : String) (dflt : Json) : Except PyErr Json :=
  match j with
  | .obj kvs => .ok ((List.lookup key kvs).getD dflt)
  | .null => .error (.attributeError "'NoneType' object has no attribute 'get'")
  | .bool _ => .error (.attributeError "'bool' object has no attribute 'get'")
  | .num _ => .error (.attributeError "'int' object has no attribute 'get'")
  | .str _ => .error (.attributeError "'str' object has no attribute 'get'")
  | .arr _ => .error (.attributeError "'list' object has no attribute 'get'")

/-- Python's `len(j)`: defined on strings, lists and dicts. -/
def pyLen : Json → Except PyErr Nat
  | .str s => .ok s.length
  | .arr xs => .ok xs.length
  | .obj kvs => .ok kvs.length
  | .null => .error (.typeError "object of type 'NoneType' has no len()")
  | .bool _ => .error (.typeError "object of type 'bool' has no len()")
  | .num _ => .error (.typeError "object of type 'int' has no len()")

mutual

/-- Python's `repr()` of a parsed JSON value (string escaping elided). -/
def pyRepr : Json → String
  | .null => "None"
  | .bool true => "True"
  | .bool false => "False"
  | .num n => toString n
  | .str s => "'" ++ s ++ "'"
  | .arr xs => "[" ++ pyReprList xs ++ "]"
  | .obj kvs => "\x7b" ++ pyReprKVs kvs ++ "\x7d"

/-- Comma-separated reprs of list elements. -/
def pyReprList : List Json → String
  | [] => ""
  | [x] => pyRepr x
  | x :: y :: rest => pyRepr x ++ ", " ++ pyReprList (y :: rest)

/-- Comma-separated `'key': value` reprs of dict entries. -/
def pyReprKVs : List (String × Json) → String
  | [] => ""
  | [(k, v)] => "'" ++ k ++ "': " ++ pyRepr v
  | (k, v) :: y :: rest => "'" ++ k ++ "': " ++ pyRepr v ++ ", " ++ pyReprKVs (y :: rest)

end

/-- Python's `str()` of a parsed JSON value, as interpolated by f-strings:
identical to `repr()` except on strings, which print unquoted. -/
def pyStr : Json → String
  | .str s => s
  | j => pyRepr j

/-- The per-message success line of lines 87 and 92:
`✅ Message \x7bi+1\x7d delivered to \x7btopic\x7d [partition \x7bp\x7d] at offset \x7bo\x7d`. -/
def deliveredLine (i : Nat) (topic : String) (partition offset : Json) : String :=
  "✅ Message " ++ toString (i + 1) ++ " delivered to " ++ topic ++
    " [partition " ++ pyStr partition ++ "] at offset " ++ pyStr offset

/-- The generic success line of line 94:
`✅ Message \x7bi+1\x7d sent (response: \x7bresult\x7d)`. -/
def sentLine (i : Nat) (result : Json) : String :=
  "✅ Message " ++ toString (i + 1) ++ " sent (response: " ++ pyStr result ++ ")"

/-- Lines 84-87 of `main`: `metadata = result['metadata']`, then
`metadata.get('partition', '?')`, `metadata.get('offset', '?')`, then print. -/
def metadataLine (i : Nat) (topic : String) (result : Json) : Except PyErr String :=
  match pySubscriptStr result "metadata" with
  | .error e => .error e
  | .ok metadata =>
    match pyGet metadata "partition" (.str "?") with
    | .error e => .error e
    | .ok partition =>
      match pyGet metadata "offset" (.str "?") with
      | .error e => .error e
      | .ok offset => .ok (deliveredLine i topic partition offset)

/-- Lines 89-92 of `main`: `offset_info = result['offsets'][0]`, then
`offset_info.get('partition', '?')`, `offset_info.get('offset', '?')`. -/
def offsetsLine (i : Nat) (topic : String) (result : Json) : Except PyErr String :=
  match pySubscriptStr result "offsets" with
  | .error e => .error e
  | .ok offs =>
    match pySubscriptNat offs 0 with
    | .error e => .error e
    | .ok offsetInfo =>
      match pyGet offsetInfo "partition" (.str "?") with
      | .error e => .error e
      | .ok partition =>
        match pyGet offsetInfo "offset" (.str "?") with
        | .error e => .error e
        | .ok offset => .ok (deliveredLine i topic partition offset)

/-- Lines 83-94 of `main`: the interpretation of one parsed 2xx response body,
returning the printed success line, or the Python exception the branch raises.
The branch conditions evaluate left to right exactly as in the source:
`result and 'metadata' in result`, then
`result and 'offsets' in result and len(result['offsets']) > 0`. -/
def interpretResult (i : Nat) (topic : String) (result : Json) : Except PyErr String :=
  match (if truthy result then pyIn "metadata" result else .ok false) with
  | .error e => .error e
  | .ok true => metadataLine i topic result
  | .ok false =>
    match (if truthy result then pyIn "offsets" result else .ok false) with
    | .error e => .error e
    | .ok false => .ok (sentLine i result)
    | .ok true =>
      match pySubscriptStr result "offsets" with
      | .error e => .error e
      | .ok offs =>
        match pyLen offs with
        | .error e => .error e
        | .ok n => if 0 < n then offsetsLine i topic result else .ok (sentLine i result)

/-- An outbound HTTP request as assembled by `produce_message_rest`. -/
structure Request where
  method : String
  url : String
  headers : List (String × String)
  body : Json

/-- The final HTTP response a call to `requests.post` yields: its status code,
its raw body text, and the JSON parse of the body (`none` when `.json()`
would raise). -/
structure Response where
  status : Nat
  text : String
  jsonBody : Option Json

/-- The parsed command-line configuration (lines 57-65). `count` is a Python
int, so it may be zero or negative. -/
structure Config where
  topic : String
  restApiUrl : String
  username : String
  password : String
  message : String
  count : Int

/-- The observable outcome of a run: process exit code, the HTTP requests
issued in order, and the lines printed to stdout and stderr. -/
structure RunResult where
  exitCode : Nat
  requests : List Request
  stdout : List String
  stderr : List String

/-- Line 68: `args.rest_api_url.rstrip('/')` — strip all trailing slashes. -/
def rstripSlash (s : String) : String :=
  String.mk (s.data.reverse.dropWhile (fun c => c == '/')).reverse

/-- Line 79: the message text of iteration `i` (0-based):
the template itself when `count == 1`, else `template (i+1/count)`. -/
def msgText (template : String) (count : Int) (i : Nat) : String :=
  if count = 1 then template
  else template ++ " (" ++ toString (i + 1) ++ "/" ++ toString count ++ ")"

/-- Lines 26-46 of `produce_message_rest`: the request it issues — a POST to
`\x7brest_api_url\x7d/topics/\x7btopic\x7d/records` with JSON content type, Basic auth over
the base64 of `username:password`, and a single-record JSON body. -/
def produce_message_rest_request
    (rest_api_url topic username password message : String) : Request :=
  { method := "POST"
    url := rest_api_url ++ "/topics/" ++ topic ++ "/records"
    headers := [("Content-Type", "application/json"),
                ("Authorization",
                  "Basic " ++ b64encodeStr (strBytes (username ++ ":" ++ password)))]
    body := Json.obj [("records", Json.arr [Json.obj [("value", Json.str message)]])] }

/-- The banner of lines 70-74, printed before the loop. -/
def bannerLines (topic url username : String) : List String :=
  ["🚀 Producing messages via REST API...",
   "   Topic: " ++ topic,
   "   REST API: " ++ url,
   "   Username: " ++ username,
   ""]

/-- The `str()` of the `requests.HTTPError` that `raise_for_status` raises on
a 4xx/5xx status; the library formats it as
`\x7bstatus\x7d Client/Server Error: \x7breason\x7d for url: \x7burl\x7d` (server-sent reason
elided in this model). -/
def httpErrStr (status : Nat) (url : String) : String :=
  toString status ++ " Error for url: " ++ url

/-- The `str()` of the `JSONDecodeError` that `response.json()` raises on an
unparseable body. -/
def jsonDecodeErrMsg : String := "Expecting value: line 1 column 1 (char 0)"

/-- The loop of lines 77-96 together with the exception handling of lines
45-54 and 97-103, starting at iteration `i` with `r` iterations remaining.
`requests.raise_for_status` raises exactly on statuses 400-599; on such a
status `produce_message_rest` prints the error, status and body to stderr and
re-raises, and `main` prints the error again and exits 1. On an unparseable
2xx body `.json()` raises and the run exits 1. Otherwise the body is
interpreted; an exception there aborts with exit 1, a success line continues
the loop. After the last iteration the summary line is printed and the
process exits 0. -/
def mainLoop (topic url username password template : String) (count : Int)
    (oracle : Nat → Response) : Nat → Nat → RunResult
  | _, 0 => { exitCode := 0, requests := [],
              stdout := ["✅ All messages sent and delivered"], stderr := [] }
  | i, r + 1 =>
    if 400 ≤ (oracle i).status ∧ (oracle i).status < 600 then
      { exitCode := 1
        requests := [produce_message_rest_request url topic username password
                      (msgText template count i)]
        stdout := []
        stderr := ["❌ REST API error: " ++
                     httpErrStr (oracle i).status (url ++ "/topics/" ++ topic ++ "/records"),
                   "   Status: " ++ toString (oracle i).status,
                   "   Response: " ++ (oracle i).text,
                   "❌ Error: " ++
                     httpErrStr (oracle i).status (url ++ "/topics/" ++ topic ++ "/records")] }
    else
      match (oracle i).jsonBody with
      | none =>
        { exitCode := 1
          requests := [produce_message_rest_request url topic username password
                        (msgText template count i)]
          stdout := []
          stderr := ["❌ REST API error: " ++ jsonDecodeErrMsg,
                     "❌ Error: " ++ jsonDecodeErrMsg] }
      | some result =>
        match interpretResult i topic result with
        | .error e =>
          { exitCode := 1
            requests := [produce_message_rest_request url topic username password
                          (msgText template count i)]
            stdout := []
            stderr := ["❌ Error: " ++ pyErrStr e] }
        | .ok line =>
          let rest := mainLoop topic url username password template count oracle (i + 1) r
          { exitCode := rest.exitCode
            requests := produce_message_rest_request url topic username password
                          (msgText template count i) :: rest.requests
            stdout := line :: rest.stdout
            stderr := rest.stderr }

/-- Prepend lines to a run's stdout. -/
def prependStdout (ls : List String) (r : RunResult) : RunResult :=
  { r with stdout := ls ++ r.stdout }

/-- Lines 56-103 of `main` after argument parsing: normalize the URL, print
the banner, then run the loop `count` times (`range(count)` is empty when
`count <= 0`). The per-request responses are supplied by `oracle`. -/
def runProducer (cfg : Config) (oracle : Nat → Response) : RunResult :=
  prependStdout
    (bannerLines cfg.topic (rstripSlash cfg.restApiUrl) cfg.username)
    (mainLoop cfg.topic (rstripSlash cfg.restApiUrl) cfg.username cfg.password
      cfg.message cfg.count oracle 0 cfg.count.toNat)

/-- Lines 57-65: argparse over the provided `--flag value` pairs. The four
connection flags are required (an empty-string value satisfies a required
flag); `--message` defaults, `--count` defaults to 1 and must parse as an
integer. A missing required flag or malformed count is a usage error (exit
code 2, before any network activity). -/
def parseArgs (argv : List (String × String)) : Except String Config :=
  match List.lookup "--topic" argv, List.lookup "--rest-api-url" argv,
        List.lookup "--username" argv, List.lookup "--password" argv with
  | some topic, some url, some username, some password =>
    match List.lookup "--count" argv with
    | none =>
      .ok { topic := topic, restApiUrl := url, username := username, password := password,
            message := (List.lookup "--message" argv).getD "Hello from REST API", count := 1 }
    | some c =>
      match c.toInt? with
      | some n =>
        .ok { topic := topic, restApiUrl := url, username := username, password := password,
              message := (List.lookup "--message" argv).getD "Hello from REST API", count := n }
      | none => .error ("argument --count: invalid int value: '" ++ c ++ "'")
  | _, _, _, _ => .error "the following arguments are required"

/-- Iteration `i` succeeds: the response status does not trigger
`raise_for_status`, the body parses, and its interpretation raises nothing. -/
def stepOk (topic : String) (resp : Response) (i : Nat) : Prop :=
  ¬(400 ≤ resp.status ∧ resp.status < 600) ∧
    ∃ js line, resp.jsonBody = some js ∧ interpretResult i topic js = .ok line


theorem utf8Bytes_lt (c : Char) : ∀ b ∈ utf8Bytes c, b < 256 := by
  have hv : c.toNat < 1114112 := by
    have h := c.valid
    rcases h with h | ⟨_, h2⟩
    · exact Nat.lt_trans h (by norm_num)
    · exact h2
  intro b hb
  unfold utf8Bytes at hb
  split at hb
  · simp only [List.mem_singleton] at hb; omega
  · split at hb
    · simp only [List.mem_cons, List.not_mem_nil, or_false] at hb
      rcases hb with h | h <;> omega
    · split at hb
      · simp only [List.mem_cons, List.not_mem_nil, or_false] at hb
        rcases hb with h | h | h <;> omega
      · simp only [List.mem_cons, List.not_mem_nil, or_false] at hb
        rcases hb with h | h | h | h <;> omega

theorem strBytes_lt (s : String) : ∀ b ∈ strBytes s, b < 256 := by
  intro b hb
  unfold strBytes at hb
  rcases List.mem_flatMap.mp hb with ⟨c, _, hc⟩
  exact utf8Bytes_lt c b hc

theorem b64val_b64char_all : ∀ n : Nat, n < 64 → b64val (b64char n) = some n := by decide

theorem b64val_b64char {n : Nat} (h : n < 64) : b64val (b64char n) = some n :=
  b64val_b64char_all n h

theorem b64char_ne_pad_all : ∀ n : Nat, n < 64 → b64char n ≠ '=' := by decide

theorem b64char_ne_pad {n : Nat} (h : n < 64) : b64char n ≠ '=' :=
  b64char_ne_pad_all n h

/-- Base64 decoding is a left inverse of encoding on byte lists. -/
theorem b64_roundtrip : ∀ bs : List Nat, (∀ b ∈ bs, b < 256) →
    b64decode (b64encode bs) = some bs
  | [], _ => rfl
  | [a], h => by
    have ha : a < 256 := h a (by simp)
    have h1 : a / 4 < 64 := by omega
    have h2 : a % 4 * 16 < 64 := by omega
    simp only [b64encode, b64decode]
    rw [b64val_b64char h1, b64val_b64char h2]
    simp only [if_pos rfl, and_self, if_true]
    have : a / 4 * 4 + a % 4 * 16 / 16 = a := by omega
    rw [this]
  | [a, b], h => by
    have ha : a < 256 := h a (by simp)
    have hb : b < 256 := h b (by simp)
    have h1 : a / 4 < 64 := by omega
    have h2 : a % 4 * 16 + b / 16 < 64 := by omega
    have h3 : b % 16 * 4 < 64 := by omega
    simp [b64encode, b64decode, b64val_b64char h1, b64val_b64char h2,
      b64val_b64char h3, b64char_ne_pad h3]
    omega
  | a :: b :: c :: rest, h => by
    have ha : a < 256 := h a (by simp)
    have hb : b < 256 := h b (by simp)
    have hc : c < 256 := h c (by simp)
    have h1 : a / 4 < 64 := by omega
    have h2 : a % 4 * 16 + b / 16 < 64 := by omega
    have h3 : b % 16 * 4 + c / 64 < 64 := by omega
    have h4 : c % 64 < 64 := by omega
    have ih := b64_roundtrip rest (fun x hx => h x (by simp_all))
    simp [b64encode, b64decode, b64val_b64char h1, b64val_b64char h2,
      b64val_b64char h3, b64val_b64char h4, b64char_ne_pad h3, b64char_ne_pad h4, ih]
    omega

theorem mainLoop_requests_get (t u un pw m : String) (c : Int) (oracle : Nat → Response) :
    ∀ (r i j : Nat) (req : Request),
      (mainLoop t u un pw m c oracle i r).requests.get? j = some req →
      req = produce_message_rest_request u t un pw (msgText m c (i + j)) := by
  intro r
  induction r with
  | zero => intro i j req h; simp [mainLoop] at h
  | succ r ih =>
    intro i j req h
    simp only [mainLoop] at h
    split at h
    · cases j with
      | zero => simp at h; simp [h]
      | succ j => simp at h
    · cases hj : (oracle i).jsonBody with
      | none =>
        simp only [hj] at h
        cases j with
        | zero => simp at h; simp [h]
        | succ j => simp at h
      | some result =>
        simp only [hj] at h
        cases hline : interpretResult i t result with
        | error e =>
          simp only [hline] at h
          cases j with
          | zero => simp at h; simp [h]
          | succ j => simp at h
        | ok line =>
          simp only [hline] at h
          cases j with
          | zero => simp at h; simp [h]
          | succ j =>
            simp only [List.get?_cons_succ] at h
            have := ih (i + 1) j req h
            rw [this]
            have e : i + 1 + j = i + (j + 1) := by omega
            rw [e]

/-- C1: every HTTP request the run issues is a POST to
`\x7bnormalized_base_url\x7d/topics/\x7btopic\x7d/records` with JSON content type and Basic
auth over base64(username:password), and its JSON body is
`\x7b"records":[\x7b"value": <message text>\x7d]\x7d` with exactly one record. -/
theorem spec_c1 (cfg : Config) (oracle : Nat → Response) (j : Nat) (req : Request)
    (h : (runProducer cfg oracle).requests.get? j = some req) :
    req.method = "POST" ∧
    req.url = rstripSlash cfg.restApiUrl ++ "/topics/" ++ cfg.topic ++ "/records" ∧
    req.headers = [("Content-Type", "application/json"),
      ("Authorization",
        "Basic " ++ b64encodeStr (strBytes (cfg.username ++ ":" ++ cfg.password)))] ∧
    ∃ msg, req.body = Json.obj [("records", Json.arr [Json.obj [("value", Json.str msg)]])] := by
  have h' := mainLoop_requests_get cfg.topic (rstripSlash cfg.restApiUrl) cfg.username
    cfg.password cfg.message cfg.count oracle cfg.count.toNat 0 j req h
  rw [h']
  exact ⟨rfl, rfl, rfl, msgText cfg.message cfg.count (0 + j), rfl⟩

theorem spec_c1_witness :
    ((runProducer ⟨"t", "https://h", "u", "p", "m", 1⟩
        (fun _ => ⟨200, "", some (Json.obj [])⟩)).requests.get? 0 =
      some (produce_message_rest_request "https://h" "t" "u" "p" "m")) ∧
    ((produce_message_rest_request "https://h" "t" "u" "p" "m").method = "POST" ∧
     (produce_message_rest_request "https://h" "t" "u" "p" "m").url =
       rstripSlash "https://h" ++ "/topics/" ++ "t" ++ "/records" ∧
     (produce_message_rest_request "https://h" "t" "u" "p" "m").headers =
       [("Content-Type", "application/json"),
        ("Authorization", "Basic " ++ b64encodeStr (strBytes ("u" ++ ":" ++ "p")))] ∧
     ∃ msg, (produce_message_rest_request "https://h" "t" "u" "p" "m").body =
       Json.obj [("records", Json.arr [Json.obj [("value", Json.str msg)]])]) :=
  ⟨rfl, spec_c1 ⟨"t", "https://h", "u", "p", "m", 1⟩
    (fun _ => ⟨200, "", some (Json.obj [])⟩) 0
    (produce_message_rest_request "https://h" "t" "u" "p" "m") rfl⟩

/-- C4 (as amended only in presentation, claim confirmed): the request at
0-based index `j` carries the message template verbatim when `count == 1`,
and the template suffixed with ` (j+1/count)` when `count > 1`. -/
theorem spec_c4 (cfg : Config) (oracle : Nat → Response) (j : Nat) (req : Request)
    (h : (runProducer cfg oracle).requests.get? j = some req) :
    (cfg.count = 1 →
      req.body = Json.obj [("records", Json.arr [Json.obj [("value", Json.str cfg.message)]])]) ∧
    (1 < cfg.count →
      req.body = Json.obj [("records", Json.arr [Json.obj [("value",
        Json.str (cfg.message ++ " (" ++ toString (j + 1) ++ "/" ++ toString cfg.count ++ ")"))]])]) := by
  have h' := mainLoop_requests_get cfg.topic (rstripSlash cfg.restApiUrl) cfg.username
    cfg.password cfg.message cfg.count oracle cfg.count.toNat 0 j req h
  rw [h']
  constructor
  · intro h1
    simp [produce_message_rest_request, msgText, h1]
  · intro h1
    have hne : cfg.count ≠ 1 := by omega
    simp [produce_message_rest_request, msgText, hne, Nat.zero_add]

theorem spec_c4_witness :
    ((runProducer ⟨"t", "https://h", "u", "p", "m", 2⟩
        (fun _ => ⟨200, "", some (Json.obj [])⟩)).requests.get? 1 =
      some (produce_message_rest_request "https://h" "t" "u" "p" "m (2/2)")) ∧
    (produce_message_rest_request "https://h" "t" "u" "p" "m (2/2)").body =
      Json.obj [("records", Json.arr [Json.obj [("value", Json.str "m (2/2)")]])] :=
  ⟨rfl, (spec_c4 ⟨"t", "https://h", "u", "p", "m", 2⟩
    (fun _ => ⟨200, "", some (Json.obj [])⟩) 1
    (produce_message_rest_request "https://h" "t" "u" "p" "m (2/2)") rfl).2 (by decide)⟩

/-- C5: every request built by `produce_message_rest` carries exactly the two
headers, and its Authorization value is `Basic ` followed by a base64 string
that decodes to precisely the UTF-8 bytes of `username:password`. -/
theorem spec_c5 (url topic username password message : String) :
    (produce_message_rest_request url topic username password message).headers =
      [("Content-Type", "application/json"),
       ("Authorization",
         "Basic " ++ b64encodeStr (strBytes (username ++ ":" ++ password)))] ∧
    b64decode (b64encode (strBytes (username ++ ":" ++ password))) =
      some (strBytes (username ++ ":" ++ password)) :=
  ⟨rfl, b64_roundtrip _ (strBytes_lt _)⟩

theorem dropWhile_slash_replicate : ∀ (k : Nat) (l : List Char),
    List.dropWhile (fun c => c == '/') (List.replicate k '/' ++ l) =
      List.dropWhile (fun c => c == '/') l := by
  intro k
  induction k with
  | zero => intro l; simp
  | succ k ih => intro l; simp [List.replicate_succ, List.dropWhile_cons, ih l]

theorem rstripSlash_append_slashes (s : String) (k : Nat) :
    rstripSlash (s ++ String.mk (List.replicate k '/')) = rstripSlash s := by
  unfold rstripSlash
  have hd : (s ++ String.mk (List.replicate k '/')).data = s.data ++ List.replicate k '/' := rfl
  rw [hd, List.reverse_append, List.reverse_replicate, dropWhile_slash_replicate]

/-- C6: all trailing slashes of `--rest-api-url` are stripped before path
construction — two URL arguments that differ only in the number of trailing
slashes make the whole run (requests, output, exit code) identical. -/
theorem spec_c6 (cfg : Config) (oracle : Nat → Response) (k₁ k₂ : Nat) :
    runProducer { cfg with restApiUrl := cfg.restApiUrl ++ String.mk (List.replicate k₁ '/') } oracle =
    runProducer { cfg with restApiUrl := cfg.restApiUrl ++ String.mk (List.replicate k₂ '/') } oracle := by
  unfold runProducer
  simp only [rstripSlash_append_slashes]

/-- C7: with `count <= 0` the loop body never executes — no requests, the
banner plus the overall success summary are printed, and the exit code is 0. -/
theorem spec_c7 (cfg : Config) (oracle : Nat → Response) (h : cfg.count ≤ 0) :
    (runProducer cfg oracle).requests = [] ∧
    (runProducer cfg oracle).exitCode = 0 ∧
    (runProducer cfg oracle).stdout =
      bannerLines cfg.topic (rstripSlash cfg.restApiUrl) cfg.username ++
        ["✅ All messages sent and delivered"] := by
  have h0 : cfg.count.toNat = 0 := Int.toNat_of_nonpos h
  unfold runProducer
  rw [h0]
  exact ⟨rfl, rfl, rfl⟩

theorem spec_c7_witness :
    ((⟨"t", "https://h", "u", "p", "m", 0⟩ : Config).count ≤ 0) ∧
    ((runProducer ⟨"t", "https://h", "u", "p", "m", 0⟩
        (fun _ => ⟨200, "", some (Json.obj [])⟩)).requests = [] ∧
     (runProducer ⟨"t", "https://h", "u", "p", "m", 0⟩
        (fun _ => ⟨200, "", some (Json.obj [])⟩)).exitCode = 0 ∧
     (runProducer ⟨"t", "https://h", "u", "p", "m", 0⟩
        (fun _ => ⟨200, "", some (Json.obj [])⟩)).stdout =
       bannerLines "t" (rstripSlash "https://h") "u" ++ ["✅ All messages sent and delivered"]) :=
  ⟨by decide, spec_c7 ⟨"t", "https://h", "u", "p", "m", 0⟩
    (fun _ => ⟨200, "", some (Json.obj [])⟩) (by decide)⟩

theorem mainLoop_password_irrelevant (t u un m : String) (c : Int)
    (oracle : Nat → Response) (p₁ p₂ : String) :
    ∀ (r i : Nat),
      (mainLoop t u un p₁ m c oracle i r).exitCode = (mainLoop t u un p₂ m c oracle i r).exitCode ∧
      (mainLoop t u un p₁ m c oracle i r).stdout = (mainLoop t u un p₂ m c oracle i r).stdout ∧
      (mainLoop t u un p₁ m c oracle i r).stderr = (mainLoop t u un p₂ m c oracle i r).stderr := by
  intro r
  induction r with
  | zero => intro i; exact ⟨rfl, rfl, rfl⟩
  | succ r ih =>
    intro i
    by_cases hst : 400 ≤ (oracle i).status ∧ (oracle i).status < 600
    · simp [mainLoop, if_pos hst]
    · simp only [mainLoop, if_neg hst]
      cases hj : (oracle i).jsonBody with
      | none => simp
      | some result =>
        dsimp only
        cases hline : interpretResult i t result with
        | error e => simp
        | ok line =>
          dsimp only
          have h := ih (i + 1)
          exact ⟨h.1, by simp [h.2.1], h.2.2⟩

/-- C8: the stdout of a run is a function of everything but the password —
two runs differing only in the password print identical stdout — and the
banner does surface topic, normalized REST URL and username. -/
theorem spec_c8 (cfg : Config) (oracle : Nat → Response) (p₁ p₂ : String) :
    (runProducer { cfg with password := p₁ } oracle).stdout =
      (runProducer { cfg with password := p₂ } oracle).stdout ∧
    ("   Topic: " ++ cfg.topic) ∈ (runProducer { cfg with password := p₁ } oracle).stdout ∧
    ("   REST API: " ++ rstripSlash cfg.restApiUrl) ∈
      (runProducer { cfg with password := p₁ } oracle).stdout ∧
    ("   Username: " ++ cfg.username) ∈ (runProducer { cfg with password := p₁ } oracle).stdout := by
  refine ⟨?_, ?_, ?_, ?_⟩
  · unfold runProducer prependStdout
    simp only
    rw [(mainLoop_password_irrelevant cfg.topic (rstripSlash cfg.restApiUrl) cfg.username
      cfg.message cfg.count oracle p₁ p₂ cfg.count.toNat 0).2.1]
  all_goals
    unfold runProducer prependStdout bannerLines
    simp [List.mem_append]

theorem mainLoop_fail (t u un pw m : String) (c : Int) (oracle : Nat → Response) :
    ∀ (j i r : Nat), 1 ≤ j → j ≤ r →
      (∀ s, s + 1 < j → stepOk t (oracle (i + s)) (i + s)) →
      400 ≤ (oracle (i + (j - 1))).status → (oracle (i + (j - 1))).status < 600 →
      (mainLoop t u un pw m c oracle i r).requests.length = j ∧
      (mainLoop t u un pw m c oracle i r).exitCode = 1 ∧
      ("   Status: " ++ toString (oracle (i + (j - 1))).status) ∈
        (mainLoop t u un pw m c oracle i r).stderr ∧
      ("   Response: " ++ (oracle (i + (j - 1))).text) ∈
        (mainLoop t u un pw m c oracle i r).stderr := by
  intro j
  induction j with
  | zero => intro i r h1; omega
  | succ j ih =>
    intro i r h1 h2 h3 h4 h5
    cases r with
    | zero => omega
    | succ r =>
      cases j with
      | zero =>
        have hi : i + (0 + 1 - 1) = i := by omega
        rw [hi] at h4 h5 ⊢
        simp [mainLoop, if_pos (And.intro h4 h5), List.mem_cons]
      | succ j =>
        have hstep := h3 0 (by omega)
        rw [Nat.add_zero] at hstep
        obtain ⟨hnot, js, line, hjs, hline⟩ := hstep
        simp only [mainLoop, if_neg hnot, hjs, hline]
        have hidx : i + (j + 1 + 1 - 1) = (i + 1) + (j + 1 - 1) := by omega
        rw [hidx] at h4 h5 ⊢
        have hrest := ih (i + 1) r (by omega) (by omega)
          (fun s hs => by
            have h := h3 (s + 1) (by omega)
            have e : i + (s + 1) = i + 1 + s := by omega
            rw [e] at h
            exact h)
          h4 h5
        refine ⟨?_, hrest.2.1, hrest.2.2.1, hrest.2.2.2⟩
        simp [hrest.1]

/-- C2 as amended: "non-2xx" tightened to the statuses `raise_for_status`
actually raises on, namely 4xx/5xx. If the j-th request (1-based) draws a
status in [400, 600) and every earlier iteration succeeded, then exactly `j`
requests are attempted, the status code and the response body are emitted to
stderr, and the process exits with code 1. -/
theorem spec_c2 (cfg : Config) (oracle : Nat → Response) (j : Nat)
    (h1 : 1 ≤ j) (h2 : j ≤ cfg.count.toNat)
    (h3 : ∀ s, s + 1 < j → stepOk cfg.topic (oracle s) s)
    (h4 : 400 ≤ (oracle (j - 1)).status) (h5 : (oracle (j - 1)).status < 600) :
    (runProducer cfg oracle).requests.length = j ∧
    (runProducer cfg oracle).exitCode = 1 ∧
    ("   Status: " ++ toString (oracle (j - 1)).status) ∈ (runProducer cfg oracle).stderr ∧
    ("   Response: " ++ (oracle (j - 1)).text) ∈ (runProducer cfg oracle).stderr := by
  have h := mainLoop_fail cfg.topic (rstripSlash cfg.restApiUrl) cfg.username cfg.password
    cfg.message cfg.count oracle j 0 cfg.count.toNat h1 h2
    (fun s hs => by simpa using h3 s hs)
    (by simpa using h4) (by simpa using h5)
  simpa [runProducer, prependStdout] using h

theorem spec_c2_witness :
    (1 ≤ 1 ∧ 1 ≤ ((⟨"t", "https://h", "u", "p", "m", 3⟩ : Config)).count.toNat ∧
      400 ≤ 404 ∧ 404 < 600) ∧
    ((runProducer ⟨"t", "https://h", "u", "p", "m", 3⟩
        (fun _ => ⟨404, "nf", some (Json.obj [])⟩)).requests.length = 1 ∧
     (runProducer ⟨"t", "https://h", "u", "p", "m", 3⟩
        (fun _ => ⟨404, "nf", some (Json.obj [])⟩)).exitCode = 1 ∧
     ("   Status: 404") ∈ (runProducer ⟨"t", "https://h", "u", "p", "m", 3⟩
        (fun _ => ⟨404, "nf", some (Json.obj [])⟩)).stderr ∧
     ("   Response: nf") ∈ (runProducer ⟨"t", "https://h", "u", "p", "m", 3⟩
        (fun _ => ⟨404, "nf", some (Json.obj [])⟩)).stderr) :=
  ⟨by decide, spec_c2 ⟨"t", "https://h", "u", "p", "m", 3⟩
    (fun _ => ⟨404, "nf", some (Json.obj [])⟩) 1 (by decide) (by decide)
    (fun s hs => absurd hs (by omega)) (by decide) (by decide)⟩

/-- C2 counterexample to the claim as stated: a 304 response is non-2xx, yet
`raise_for_status` does not raise on it, so with a parseable body the run
treats the message as delivered, prints nothing to stderr and exits 0. -/
theorem spec_c2_cex :
    (runProducer ⟨"t", "https://h", "u", "p", "m", 1⟩
      (fun _ => ⟨304, "", some (Json.obj [])⟩)).exitCode = 0 ∧
    (runProducer ⟨"t", "https://h", "u", "p", "m", 1⟩
      (fun _ => ⟨304, "", some (Json.obj [])⟩)).requests.length = 1 ∧
    (runProducer ⟨"t", "https://h", "u", "p", "m", 1⟩
      (fun _ => ⟨304, "", some (Json.obj [])⟩)).stderr = [] :=
  ⟨rfl, rfl, rfl⟩

/-- C3 as amended: the ordered interpretation of a 2xx response holds for
object (dict) bodies, with the branch guards as the code actually tests them:
(a) a `metadata` key whose value is an object surfaces its
`partition`/`offset` with `'?'` defaults; (b) when no `metadata` key is
present at all (not merely no metadata *object*), an `offsets` key holding a
non-empty array with an object first element surfaces that element's fields;
(c) when neither key is present the generic success line with the raw parsed
response is printed and the message counts as delivered. -/
theorem spec_c3 (i : Nat) (topic : String) (kvs : List (String × Json)) :
    (∀ mkvs, List.lookup "metadata" kvs = some (Json.obj mkvs) →
      interpretResult i topic (Json.obj kvs) =
        .ok (deliveredLine i topic ((List.lookup "partition" mkvs).getD (Json.str "?"))
          ((List.lookup "offset" mkvs).getD (Json.str "?")))) ∧
    (List.lookup "metadata" kvs = none →
      ∀ fkvs rest, List.lookup "offsets" kvs = some (Json.arr (Json.obj fkvs :: rest)) →
      interpretResult i topic (Json.obj kvs) =
        .ok (deliveredLine i topic ((List.lookup "partition" fkvs).getD (Json.str "?"))
          ((List.lookup "offset" fkvs).getD (Json.str "?")))) ∧
    (List.lookup "metadata" kvs = none → List.lookup "offsets" kvs = none →
      interpretResult i topic (Json.obj kvs) = .ok (sentLine i (Json.obj kvs))) := by
  refine ⟨?_, ?_, ?_⟩
  · intro mkvs hm
    have htr : truthy (Json.obj kvs) = true := by
      cases kvs with
      | nil => simp [List.lookup] at hm
      | cons a l => rfl
    simp [interpretResult, htr, pyIn, hm, metadataLine, pySubscriptStr, pyGet]
  · intro hm fkvs rest ho
    have htr : truthy (Json.obj kvs) = true := by
      cases kvs with
      | nil => simp [List.lookup] at ho
      | cons a l => rfl
    simp [interpretResult, htr, pyIn, hm, ho, offsetsLine, pySubscriptStr,
      pySubscriptNat, pyLen, pyGet]
  · intro hm ho
    cases kvs with
    | nil => rfl
    | cons a l =>
      have htr : truthy (Json.obj (a :: l)) = true := rfl
      simp [interpretResult, htr, pyIn, hm, ho]

theorem spec_c3_witness :
    (List.lookup "metadata"
        [("metadata", Json.obj [("partition", Json.num 2), ("offset", Json.num 17)])] =
      some (Json.obj [("partition", Json.num 2), ("offset", Json.num 17)])) ∧
    interpretResult 0 "T"
        (Json.obj [("metadata", Json.obj [("partition", Json.num 2), ("offset", Json.num 17)])]) =
      .ok (deliveredLine 0 "T"
        ((List.lookup "partition" [("partition", Json.num 2), ("offset", Json.num 17)]).getD (Json.str "?"))
        ((List.lookup "offset" [("partition", Json.num 2), ("offset", Json.num 17)]).getD (Json.str "?"))) :=
  ⟨rfl, (spec_c3 0 "T"
    [("metadata", Json.obj [("partition", Json.num 2), ("offset", Json.num 17)])]).1
    [("partition", Json.num 2), ("offset", Json.num 17)] rfl⟩

/-- C3 counterexample to the claim as stated: the body `{"metadata": 5}`
contains neither a `metadata` *object* nor an `offsets` array, so the claim's
final branch promises a generic success line; the code instead reaches
`result['metadata']`, calls `.get` on the int and dies with AttributeError,
and the run exits 1 having printed no success line for the message. -/
theorem spec_c3_cex :
    interpretResult 0 "t" (Json.obj [("metadata", Json.num 5)]) =
      .error (.attributeError "'int' object has no attribute 'get'") ∧
    (runProducer ⟨"t", "https://h", "u", "p", "m", 1⟩
      (fun _ => ⟨200, "", some (Json.obj [("metadata", Json.num 5)])⟩)).exitCode = 1 ∧
    (runProducer ⟨"t", "https://h", "u", "p", "m", 1⟩
      (fun _ => ⟨200, "", some (Json.obj [("metadata", Json.num 5)])⟩)).stdout =
      bannerLines "t" "https://h" "u" ∧
    (runProducer ⟨"t", "https://h", "u", "p", "m", 1⟩
      (fun _ => ⟨200, "", some (Json.obj [("metadata", Json.num 5)])⟩)).stderr =
      ["❌ Error: 'int' object has no attribute 'get'"] :=
  ⟨rfl, rfl, rfl, rfl⟩

/-- C9 as amended: `--topic` is required in the argparse sense only — an
invocation missing the flag is a usage error before any network activity, but
an empty-string value satisfies the requirement and is not rejected. -/
theorem spec_c9 (argv : List (String × String))
    (h : List.lookup "--topic" argv = none) :
    parseArgs argv = .error "the following arguments are required" := by
  unfold parseArgs
  rw [h]

theorem spec_c9_witness :
    (List.lookup "--topic" [("--username", "u")] = none) ∧
    parseArgs [("--username", "u")] = .error "the following arguments are required" :=
  ⟨rfl, spec_c9 [("--username", "u")] rfl⟩

/-- C9 counterexample to the claim as stated: `--topic ""` parses
successfully (argparse only checks presence), and the run then issues a
request to `https://h/topics//records` — network activity happens and no
usage error is raised for the empty topic. -/
theorem spec_c9_cex :
    parseArgs [("--topic", ""), ("--rest-api-url", "https://h"),
        ("--username", "u"), ("--password", "p")] =
      .ok ⟨"", "https://h", "u", "p", "Hello from REST API", 1⟩ ∧
    (runProducer ⟨"", "https://h", "u", "p", "Hello from REST API", 1⟩
        (fun _ => ⟨200, "ok", some (Json.obj [])⟩)).requests =
      [produce_message_rest_request "https://h" "" "u" "p" "Hello from REST API"] ∧
    (produce_message_rest_request "https://h" "" "u" "p" "Hello from REST API").url =
      "https://h/topics//records" :=
  ⟨rfl, rfl, rfl⟩

/-- C10: a 2xx response whose JSON body is a string containing the substring
`metadata` passes the truthiness and membership tests (`'metadata' in result`
is a substring test on strings), then `result['metadata']` raises TypeError;
the run prints the error to stderr, prints no success line, and exits 1. -/
theorem spec_c10 (cfg : Config) (oracle : Nat → Response) (s : String)
    (h1 : strContains s "metadata" = true)
    (h2 : ¬(400 ≤ (oracle 0).status ∧ (oracle 0).status < 600))
    (h3 : (oracle 0).jsonBody = some (Json.str s))
    (h4 : cfg.count = 1) :
    pyIn "metadata" (Json.str s) = .ok true ∧
    pySubscriptStr (Json.str s) "metadata" =
      .error (.typeError "string indices must be integers") ∧
    (runProducer cfg oracle).exitCode = 1 ∧
    (runProducer cfg oracle).stderr = ["❌ Error: string indices must be integers"] ∧
    (runProducer cfg oracle).stdout =
      bannerLines cfg.topic (rstripSlash cfg.restApiUrl) cfg.username := by
  have hne : s ≠ "" := by
    intro he
    subst he
    exact absurd h1 (by decide)
  have htr : truthy (Json.str s) = true := by
    simp [truthy, bne_iff_ne]
    exact hne
  have hint : interpretResult 0 cfg.topic (Json.str s) =
      .error (.typeError "string indices must be integers") := by
    simp [interpretResult, htr, pyIn, h1, metadataLine, pySubscriptStr]
  have hml : mainLoop cfg.topic (rstripSlash cfg.restApiUrl) cfg.username cfg.password
      cfg.message cfg.count oracle 0 cfg.count.toNat =
      ⟨1, [produce_message_rest_request (rstripSlash cfg.restApiUrl) cfg.topic cfg.username
            cfg.password (msgText cfg.message cfg.count 0)], [],
        ["❌ Error: " ++ pyErrStr (PyErr.typeError "string indices must be integers")]⟩ := by
    rw [h4]
    simp only [Int.toNat_one, mainLoop, if_neg h2, h3, hint]
  refine ⟨?_, rfl, ?_, ?_, ?_⟩
  · simp [pyIn, h1]
  · simp [runProducer, prependStdout, hml]
  · simp [runProducer, prependStdout, hml, pyErrStr]
  · simp [runProducer, prependStdout, hml]

theorem spec_c10_witness :
    (strContains "metadata" "metadata" = true ∧
      ((⟨"t", "https://h", "u", "p", "m", 1⟩ : Config)).count = 1) ∧
    ((runProducer ⟨"t", "https://h", "u", "p", "m", 1⟩
        (fun _ => ⟨200, "", some (Json.str "metadata")⟩)).exitCode = 1 ∧
     (runProducer ⟨"t", "https://h", "u", "p", "m", 1⟩
        (fun _ => ⟨200, "", some (Json.str "metadata")⟩)).stderr =
       ["❌ Error: string indices must be integers"]) :=
  ⟨⟨by decide, rfl⟩,
   ⟨(spec_c10 ⟨"t", "https://h", "u", "p", "m", 1⟩
      (fun _ => ⟨200, "", some (Json.str "metadata")⟩) "metadata"
      (by decide) (by decide) rfl rfl).2.2.1,
    (spec_c10 ⟨"t", "https://h", "u", "p", "m", 1⟩
      (fun _ => ⟨200, "", some (Json.str "metadata")⟩) "metadata"
      (by decide) (by decide) rfl rfl).2.2.2.1⟩⟩
